import Mathlib

/-!
Shallow embedding of the time-double-ledger simulator's core
(`go/internal/ledger/ledger.go`, `go/internal/ledger/ops.go`,
`go/internal/messaging/fraud_consumer.go`, and the outbox publisher).

Database tables are modelled as Lean lists of rows; a transaction that
rolls back is modelled by returning the original state.  Timestamps are
`Nat`; DB-generated uuids are drawn from a counter stored in the state.
-/

namespace TimeLedger

/-! ## Rows of the relational schema (db/migrations/0001_init.sql) -/

structure ZoneRow where
  id : String
  status : String            -- OK | DEGRADED | DOWN
  deriving Repr, DecidableEq

structure ZoneControlsRow where
  zone_id : String
  writes_blocked : Bool
  cross_zone_throttle : Int
  spool_enabled : Bool
  deriving Repr, DecidableEq

structure AccountRow where
  id : String
  zone_id : String
  deriving Repr, DecidableEq

structure TxnRow where
  id : String
  request_id : String
  payload_hash : String
  from_account : String
  to_account : String
  amount_units : Int
  zone_id : String
  created_at : Nat
  deriving Repr, DecidableEq

structure PostingRow where
  txn_id : String
  account_id : String
  direction : String         -- DEBIT | CREDIT
  amount_units : Int
  deriving Repr, DecidableEq

structure BalanceRow where
  account_id : String
  balance_units : Int
  deriving Repr, DecidableEq

structure OutboxPayload where
  event_id : Option String
  transaction_id : String
  zone_id : String
  amount_units : Int
  created_at : Nat
  deriving Repr, DecidableEq

structure OutboxRow where
  id : String
  event_type : String
  payload : OutboxPayload
  created_at : Nat
  published_at : Option Nat
  deriving Repr, DecidableEq

structure SpoolRow where
  id : String
  request_id : String
  payload_hash : String
  from_account : String
  to_account : String
  amount_units : Int
  zone_id : String
  status : String            -- PENDING | APPLIED | FAILED
  fail_reason : Option String
  created_at : Nat
  deriving Repr, DecidableEq

structure NoteEntry where
  noteAt : Nat
  actor : String
  note : String
  action : String
  deriving Repr, DecidableEq

structure IncidentRow where
  id : String
  zone_id : String
  related_txn_id : Option String
  severity : String          -- INFO | WARN | CRITICAL
  status : String            -- OPEN | ACK | RESOLVED
  title : String
  assignee : Option String
  notes : List NoteEntry
  rule : Option String
  amount_units : Option Int
  deriving Repr, DecidableEq

structure AuditRow where
  actor : String
  action : String
  target_type : String
  target_id : String
  reason : Option String
  deriving Repr, DecidableEq

/-- The whole relational state, plus a counter feeding DB-generated ids. -/
structure DB where
  zones : List ZoneRow
  zone_controls : List ZoneControlsRow
  accounts : List AccountRow
  transactions : List TxnRow
  postings : List PostingRow
  balances : List BalanceRow
  outbox : List OutboxRow
  inbox : List (String × String)      -- (consumer, event_id)
  spooled : List SpoolRow
  incidents : List IncidentRow
  audit : List AuditRow
  nextId : Nat
  deriving Repr, DecidableEq

/-- A DB-generated uuid (`gen_random_uuid()` in the schema): opaque, fresh. -/
def genId (db : DB) : String × DB :=
  ("uuid-" ++ Nat.repr db.nextId, { db with nextId := db.nextId + 1 })

/-! ## FNV-1a hashing (ledger.go `hashPercent`, Go `hash/fnv` 32-bit) -/

/-- UTF-8 encoding of one character, matching Go's `[]byte(s)` view. -/
def utf8Bytes (c : Char) : List Nat :=
  let n := c.toNat
  if n < 0x80 then [n]
  else if n < 0x800 then [0xC0 ||| (n >>> 6), 0x80 ||| (n &&& 0x3F)]
  else if n < 0x10000 then
    [0xE0 ||| (n >>> 12), 0x80 ||| ((n >>> 6) &&& 0x3F), 0x80 ||| (n &&& 0x3F)]
  else
    [0xF0 ||| (n >>> 18), 0x80 ||| ((n >>> 12) &&& 0x3F),
     0x80 ||| ((n >>> 6) &&& 0x3F), 0x80 ||| (n &&& 0x3F)]

def strBytes (s : String) : List Nat :=
  (s.data.map utf8Bytes).flatten

/-- 32-bit FNV-1a over a byte sequence. -/
def fnv1a32 (bytes : List Nat) : Nat :=
  bytes.foldl (fun h b => ((h ^^^ b) * 16777619) % 4294967296) 2166136261

/-- `Ledger.hashPercent`: FNV-1a of the string, reduced mod 100. -/
def hashPercent (s : String) : Nat :=
  fnv1a32 (strBytes s) % 100

/-! ## Gating decision (ledger.go, CreateTransfer lines 100-117) -/

/-- The `blockedReason` computation of `CreateTransfer`, verbatim from the
source: DOWN wins, then `writes_blocked`, then the deterministic throttle. -/
def blockedReason (status : String) (c : ZoneControlsRow) (requestId : String) : String :=
  if status = "DOWN" then "zone down"
  else if c.writes_blocked then "writes blocked"
  else
    let thr := c.cross_zone_throttle
    if thr < 100 then
      if thr ≤ 0 then "throttled"
      else if (hashPercent requestId : Int) ≥ thr then "throttled" else ""
    else ""

/-- The gating decision as the specification words it (§4.C step 3):
`cross_zone_throttle = 0` yields "throttled", otherwise the hash-bucket
comparison decides. -/
def blockedReasonSpec (status : String) (c : ZoneControlsRow) (requestId : String) : String :=
  if status = "DOWN" then "zone down"
  else if c.writes_blocked then "writes blocked"
  else if c.cross_zone_throttle < 100 then
    if c.cross_zone_throttle = 0 then "throttled"
    else if (hashPercent requestId : Int) ≥ c.cross_zone_throttle then "throttled"
    else ""
  else ""

/-! ## Ledger engine (ledger.go) -/

structure CreateTransferInput where
  request_id : String
  payload_hash : String
  from_account : String
  to_account : String
  amount_units : Int
  zone_id : String
  deriving Repr, DecidableEq

inductive LedgerErr where
  | zoneUnknown
  | idempotencyConflict
  | zoneDown
  | zoneBlocked
  deriving Repr, DecidableEq

inductive TransferOutcome where
  | applied (id : String) (request_id : String) (created_at : Nat)
  | spooled (spool_id : String)
  deriving Repr, DecidableEq

/-- `SELECT status FROM zones WHERE id=$1`. -/
def zoneStatus (db : DB) (zoneId : String) : Option String :=
  (db.zones.find? (fun z => z.id = zoneId)).map (fun z => z.status)

/-- Default controls row (`zone_controls` column defaults). -/
def defaultControls (zoneId : String) : ZoneControlsRow :=
  { zone_id := zoneId, writes_blocked := false, cross_zone_throttle := 100,
    spool_enabled := false }

/-- `INSERT INTO zone_controls(zone_id) VALUES($1) ON CONFLICT DO NOTHING`. -/
def materializeControls (cs : List ZoneControlsRow) (zoneId : String) : List ZoneControlsRow :=
  if cs.any (fun c => c.zone_id = zoneId) then cs else cs ++ [defaultControls zoneId]

/-- Read the controls row after materialization (`getZoneControlsTx`). -/
def getControls (cs : List ZoneControlsRow) (zoneId : String) : ZoneControlsRow :=
  match (materializeControls cs zoneId).find? (fun c => c.zone_id = zoneId) with
  | some c => c
  | none => defaultControls zoneId

/-- `ensureAccount`: insert the account in the initiating zone if missing. -/
def ensureAccount (accts : List AccountRow) (accountId zoneId : String) : List AccountRow :=
  if accts.any (fun a => a.id = accountId) then accts
  else accts ++ [{ id := accountId, zone_id := zoneId }]

def ensureAccounts (db : DB) (i : CreateTransferInput) : DB :=
  { db with accounts :=
      ensureAccount (ensureAccount db.accounts i.from_account i.zone_id) i.to_account i.zone_id }

/-- `INSERT INTO balances ... ON CONFLICT (account_id) DO UPDATE SET
balance_units = balances.balance_units + EXCLUDED.balance_units`. -/
def upsertBalance : List BalanceRow → String → Int → List BalanceRow
  | [], a, d => [{ account_id := a, balance_units := d }]
  | b :: bs, a, d =>
    if b.account_id = a then { account_id := a, balance_units := b.balance_units + d } :: bs
    else b :: upsertBalance bs a d

/-- Balance read from a balances table (0 when no row exists yet). -/
def lookupBalance (rows : List BalanceRow) (accountId : String) : Int :=
  match rows.find? (fun b => b.account_id = accountId) with
  | some b => b.balance_units
  | none => 0

/-- Balance projection read (0 when no row exists yet). -/
def balanceOf (db : DB) (accountId : String) : Int :=
  lookupBalance db.balances accountId

/-- `applyTransferTx`: insert the transaction row, the DEBIT/CREDIT posting
pair, the balance upserts and the `TRANSFER_POSTED` outbox row. -/
def applyTransferTx (db : DB) (i : CreateTransferInput) (now : Nat) : String × DB :=
  let (txnId, db1) := genId db
  let txn : TxnRow :=
    { id := txnId, request_id := i.request_id, payload_hash := i.payload_hash,
      from_account := i.from_account, to_account := i.to_account,
      amount_units := i.amount_units, zone_id := i.zone_id, created_at := now }
  let deb : PostingRow :=
    { txn_id := txnId, account_id := i.from_account, direction := "DEBIT",
      amount_units := i.amount_units }
  let cre : PostingRow :=
    { txn_id := txnId, account_id := i.to_account, direction := "CREDIT",
      amount_units := i.amount_units }
  let bals := upsertBalance (upsertBalance db1.balances i.from_account (-i.amount_units))
      i.to_account i.amount_units
  let (outId, db2) := genId db1
  let payload : OutboxPayload :=
    { event_id := some "generated_by_db", transaction_id := txnId, zone_id := i.zone_id,
      amount_units := i.amount_units, created_at := now }
  let orow : OutboxRow :=
    { id := outId, event_type := "TRANSFER_POSTED", payload := payload,
      created_at := now, published_at := none }
  (txnId,
   { db2 with transactions := db2.transactions ++ [txn],
              postings := db2.postings ++ [deb, cre],
              balances := bals,
              outbox := db2.outbox ++ [orow] })

/-- `spoolTransferTx`: probe the spool table, then insert a PENDING row plus
the `SPOOL_TRANSFER` audit entry. -/
def spoolTransferTx (db : DB) (i : CreateTransferInput) (failReason : String) (now : Nat) :
    Except LedgerErr (String × DB) :=
  match db.spooled.find? (fun s => s.request_id = i.request_id) with
  | some s =>
    if s.payload_hash ≠ i.payload_hash then .error .idempotencyConflict
    else .ok (s.id, db)
  | none =>
    let (spoolId, db1) := genId db
    let row : SpoolRow :=
      { id := spoolId, request_id := i.request_id, payload_hash := i.payload_hash,
        from_account := i.from_account, to_account := i.to_account,
        amount_units := i.amount_units, zone_id := i.zone_id,
        status := "PENDING", fail_reason := some failReason, created_at := now }
    let arow : AuditRow :=
      { actor := "system", action := "SPOOL_TRANSFER", target_type := "zone",
        target_id := i.zone_id, reason := some failReason }
    .ok (spoolId, { db1 with spooled := db1.spooled ++ [row], audit := db1.audit ++ [arow] })

/-- `Ledger.CreateTransfer`: one serializable transaction.  Error paths roll
back (the original state is returned); success paths commit. -/
def CreateTransfer (db : DB) (i : CreateTransferInput) (now : Nat) :
    Except LedgerErr TransferOutcome × DB :=
  match zoneStatus db i.zone_id with
  | none => (.error .zoneUnknown, db)
  | some status =>
    let db1 := { db with zone_controls := materializeControls db.zone_controls i.zone_id }
    let c := getControls db.zone_controls i.zone_id
    let reason := blockedReason status c i.request_id
    match db.transactions.find? (fun t => t.request_id = i.request_id) with
    | some t =>
      if t.payload_hash ≠ i.payload_hash then (.error .idempotencyConflict, db)
      else (.ok (.applied t.id i.request_id t.created_at), db1)
    | none =>
      match db.spooled.find? (fun s => s.request_id = i.request_id) with
      | some s =>
        if s.payload_hash ≠ i.payload_hash then (.error .idempotencyConflict, db)
        else (.ok (.spooled s.id), db1)
      | none =>
        if reason ≠ "" then
          if c.spool_enabled then
            match spoolTransferTx db1 i reason now with
            | .error e => (.error e, db)
            | .ok (spoolId, db2) => (.ok (.spooled spoolId), db2)
          else if status = "DOWN" then (.error .zoneDown, db)
          else (.error .zoneBlocked, db)
        else
          let db2 := ensureAccounts db1 i
          let (txnId, db3) := applyTransferTx db2 i now
          (.ok (.applied txnId i.request_id now), db3)

/-- `Ledger.ApplyTransferBypass`: apply without zone gating (spool replay);
idempotency against `transactions` is still enforced. -/
def ApplyTransferBypass (db : DB) (i : CreateTransferInput) (now : Nat) :
    Except LedgerErr (String × Nat) × DB :=
  match db.transactions.find? (fun t => t.request_id = i.request_id) with
  | some t =>
    if t.payload_hash ≠ i.payload_hash then (.error .idempotencyConflict, db)
    else (.ok (t.id, t.created_at), db)
  | none =>
    let db1 := ensureAccounts db i
    let (txnId, db2) := applyTransferTx db1 i now
    (.ok (txnId, now), db2)

/-! ## Spool replay (ops.go `ReplaySpool`) -/

inductive ReplayErr where
  | zoneMissing
  | notReady
  deriving Repr, DecidableEq

structure ReplayResult where
  zone_id : String
  applied : Nat
  failed : Nat
  deriving Repr, DecidableEq

/-- `if limit <= 0 || limit > 500 { limit = 50 }`. -/
def effLimit (limit : Int) : Int :=
  if limit ≤ 0 ∨ limit > 500 then 50 else limit

/-- The replay query: `WHERE zone_id=$1 AND status='PENDING' ORDER BY
created_at ASC LIMIT $2`. -/
def replaySelection (db : DB) (zoneId : String) (limit : Int) : List SpoolRow :=
  (List.insertionSort (fun a b => a.created_at ≤ b.created_at)
      (db.spooled.filter (fun s => s.zone_id = zoneId ∧ s.status = "PENDING"))).take
    (effLimit limit).toNat

/-- Error message strings of the typed ledger errors (Go `err.Error()`). -/
def ledgerErrMessage : LedgerErr → String
  | .zoneUnknown => "no rows in result set"
  | .idempotencyConflict => "idempotency conflict"
  | .zoneDown => "zone down"
  | .zoneBlocked => "zone blocked"

/-- `UPDATE spooled_transfers SET status=..., fail_reason=... WHERE id=...`. -/
def markSpool (rows : List SpoolRow) (spoolId newStatus : String)
    (failReason : Option String) : List SpoolRow :=
  rows.map (fun s => if s.id = spoolId then
    { s with status := newStatus, fail_reason := failReason } else s)

/-- The per-row replay loop: apply with bypass, then mark APPLIED or FAILED. -/
def replayRows (now : Nat) : DB → List SpoolRow → Nat × Nat × DB
  | db, [] => (0, 0, db)
  | db, s :: rest =>
    let i : CreateTransferInput :=
      { request_id := s.request_id, payload_hash := s.payload_hash,
        from_account := s.from_account, to_account := s.to_account,
        amount_units := s.amount_units, zone_id := s.zone_id }
    match ApplyTransferBypass db i now with
    | (.ok _, db1) =>
      let db2 := { db1 with spooled := markSpool db1.spooled s.id "APPLIED" none }
      let (a, f, db3) := replayRows now db2 rest
      (a + 1, f, db3)
    | (.error e, db1) =>
      let db2 := { db1 with
        spooled := markSpool db1.spooled s.id "FAILED" (some (ledgerErrMessage e)) }
      let (a, f, db3) := replayRows now db2 rest
      (a, f + 1, db3)

/-- `Ledger.ReplaySpool`.  Controls are materialized outside any transaction
(`GetZoneControls`), so that write persists even on the NotReady path. -/
def ReplaySpool (db : DB) (zoneId : String) (limit : Int) (actor reason : String) (now : Nat) :
    Except ReplayErr ReplayResult × DB :=
  match zoneStatus db zoneId with
  | none => (.error .zoneMissing, db)
  | some status =>
    let db1 := { db with zone_controls := materializeControls db.zone_controls zoneId }
    let c := getControls db.zone_controls zoneId
    if status = "DOWN" ∨ c.writes_blocked = true ∨ c.cross_zone_throttle = 0 then
      (.error .notReady, db1)
    else
      let sel := replaySelection db1 zoneId limit
      let (a, f, db2) := replayRows now db1 sel
      let arow : AuditRow :=
        { actor := actor, action := "REPLAY_SPOOL", target_type := "zone",
          target_id := zoneId, reason := some reason }
      (.ok { zone_id := zoneId, applied := a, failed := f },
       { db2 with audit := db2.audit ++ [arow] })

/-! ## Incident actions (ops.go `ApplyIncidentAction`) -/

structure IncidentAction where
  action : String            -- ACK | ASSIGN | RESOLVE
  assignee : String
  note : String
  actor : String
  reason : String
  deriving Repr, DecidableEq

inductive IncidentErr where
  | actorRequired
  | invalidAction
  | assigneeRequired
  | notFound
  deriving Repr, DecidableEq

/-- `Ledger.ApplyIncidentAction`: validate the request, load the incident,
mutate details/status, write the `INCIDENT_<action>` audit row. -/
def ApplyIncidentAction (db : DB) (incidentId : String) (a : IncidentAction) (now : Nat) :
    Except IncidentErr IncidentRow × DB :=
  if a.actor = "" then (.error .actorRequired, db)
  else if ¬(a.action = "ACK" ∨ a.action = "ASSIGN" ∨ a.action = "RESOLVE") then
    (.error .invalidAction, db)
  else if a.action = "ASSIGN" ∧ a.assignee = "" then (.error .assigneeRequired, db)
  else
    match db.incidents.find? (fun i => i.id = incidentId) with
    | none => (.error .notFound, db)
    | some inc =>
      let newAssignee := if a.action = "ASSIGN" then some a.assignee else inc.assignee
      let newNotes :=
        if a.note ≠ "" then
          inc.notes ++ [{ noteAt := now, actor := a.actor, note := a.note, action := a.action }]
        else inc.notes
      let newStatus :=
        if a.action = "ACK" then "ACK"
        else if a.action = "RESOLVE" then "RESOLVED"
        else inc.status
      let out := { inc with status := newStatus, assignee := newAssignee, notes := newNotes }
      let arow : AuditRow :=
        { actor := a.actor, action := "INCIDENT_" ++ a.action, target_type := "incident",
          target_id := incidentId, reason := some a.reason }
      (.ok out,
       { db with incidents := db.incidents.map (fun i => if i.id = incidentId then out else i),
                 audit := db.audit ++ [arow] })

/-! ## Fraud consumer (fraud_consumer.go `handleMsg`) -/

structure TransferPostedEvent where
  event_id : String
  transaction_id : String
  zone_id : String
  amount_units : Int
  deriving Repr, DecidableEq

/-- A delivered broker message: `decoded = none` models a JSON decode
failure; `headerMsgId` is the `Nats-Msg-Id` header. -/
structure ConsumerMsg where
  decoded : Option TransferPostedEvent
  headerMsgId : String
  deriving Repr, DecidableEq

/-- The incident the large-transfer rule inserts. -/
def largeTransferIncident (id : String) (ev : TransferPostedEvent) : IncidentRow :=
  { id := id, zone_id := ev.zone_id, related_txn_id := some ev.transaction_id,
    severity := "WARN", status := "OPEN", title := "Large time transfer",
    assignee := none, notes := [], rule := some "large_transfer",
    amount_units := some ev.amount_units }

/-- `FraudConsumer.handleMsg` (transient DB failures aside): decode, fall
back to the header id, insert the inbox row with `ON CONFLICT DO NOTHING`
— discarding whether it was a conflict — then run the ≥ 3600 rule and ack.
Returns the new state and whether the message was acked. -/
def handleMsg (db : DB) (msg : ConsumerMsg) : DB × Bool :=
  match msg.decoded with
  | none => (db, true)
  | some ev0 =>
    let ev := if ev0.event_id = "" then { ev0 with event_id := msg.headerMsgId } else ev0
    if ev.event_id = "" then (db, true)
    else
      let db1 :=
        if ("fraud-v1", ev.event_id) ∈ db.inbox then db
        else { db with inbox := db.inbox ++ [("fraud-v1", ev.event_id)] }
      let db2 :=
        if ev.amount_units ≥ 3600 then
          let (incId, dbg) := genId db1
          { dbg with incidents := dbg.incidents ++ [largeTransferIncident incId ev] }
        else db1
      (db2, true)

/-! ## Outbox publisher (`publishBatch`) -/

/-- A message handed to the broker. -/
structure OutMsg where
  subject : String
  msgId : String             -- Nats-Msg-Id header
  body : OutboxPayload
  deriving Repr, DecidableEq

/-- Rewrite of the payload before publication: when `event_id` is absent or
holds the `"generated_by_db"` sentinel, set it to the outbox row id. -/
def rewriteEventId (p : OutboxPayload) (rowId : String) : OutboxPayload :=
  if p.event_id = none ∨ p.event_id = some "generated_by_db" then
    { p with event_id := some rowId }
  else p

/-- The batch query: `WHERE published_at IS NULL ORDER BY created_at LIMIT $1`. -/
def selectUnpublished (outbox : List OutboxRow) (limit : Nat) : List OutboxRow :=
  (List.insertionSort (fun a b => a.created_at ≤ b.created_at)
      (outbox.filter (fun r => r.published_at = none))).take limit

/-- The per-row loop of `publishBatch`: publish (oracle `pubOk`), then mark
`published_at` (oracle `markOk`); any failure stops the batch.  Returns the
messages handed to the broker and the ids whose rows were marked. -/
def runBatch (pubOk markOk : String → Bool) : List OutboxRow → List OutMsg × List String
  | [] => ([], [])
  | r :: rest =>
    let m : OutMsg :=
      { subject := "events.transfer_posted", msgId := r.id,
        body := rewriteEventId r.payload r.id }
    if pubOk r.id then
      if markOk r.id then
        let (ms, ids) := runBatch pubOk markOk rest
        (m :: ms, r.id :: ids)
      else ([m], [])
    else ([], [])

/-- `OutboxPublisher.publishBatch` over the stored outbox. -/
def publishBatch (db : DB) (pubOk markOk : String → Bool) (limit : Nat) (now : Nat) :
    List OutMsg × DB :=
  let batch := selectUnpublished db.outbox limit
  let (ms, ids) := runBatch pubOk markOk batch
  (ms, { db with outbox := db.outbox.map (fun r =>
          if r.id ∈ ids then { r with published_at := some now } else r) })

/-! ## Helper lemmas about list probes -/

/-! ## Fixture states for concrete instantiations -/
/-- An empty database state, for concrete instantiations. -/
def emptyDB : DB :=
  { zones := [], zone_controls := [], accounts := [], transactions := [],
    postings := [], balances := [], outbox := [], inbox := [], spooled := [],
    incidents := [], audit := [], nextId := 0 }

def incC10 : IncidentRow :=
  { id := "i1", zone_id := "zone-eu", related_txn_id := none, severity := "WARN",
    status := "RESOLVED", title := "Large time transfer", assignee := none,
    notes := [], rule := some "large_transfer", amount_units := some 3600 }

def dbC10 : DB := { emptyDB with incidents := [incC10] }

def actC10 : IncidentAction :=
  { action := "ACK", assignee := "", note := "", actor := "op", reason := "" }

def txnC5 : TxnRow :=
  { id := "uuid-7", request_id := "r1", payload_hash := "h1", from_account := "a",
    to_account := "b", amount_units := 120, zone_id := "zone-eu", created_at := 3 }

def dbC5 : DB :=
  { emptyDB with
    zones := [{ id := "zone-eu", status := "DOWN" }],
    zone_controls := [{ zone_id := "zone-eu", writes_blocked := true,
                        cross_zone_throttle := 0, spool_enabled := true }],
    transactions := [txnC5] }

def inC5 : CreateTransferInput :=
  { request_id := "r1", payload_hash := "h1", from_account := "a",
    to_account := "b", amount_units := 120, zone_id := "zone-eu" }

def dbC2w : DB :=
  { emptyDB with
    zones := [{ id := "zone-eu", status := "OK" }],
    transactions := [txnC5] }

def inC2w : CreateTransferInput :=
  { request_id := "r1", payload_hash := "h2", from_account := "a",
    to_account := "b", amount_units := 121, zone_id := "zone-eu" }

def dbC6 : DB :=
  { emptyDB with
    zones := [{ id := "zone-af", status := "DOWN" }],
    zone_controls := [{ zone_id := "zone-af", writes_blocked := false,
                        cross_zone_throttle := 100, spool_enabled := true }] }

def inC6 : CreateTransferInput :=
  { request_id := "r2", payload_hash := "h2", from_account := "a",
    to_account := "b", amount_units := 60, zone_id := "zone-af" }

def dbC3 : DB := { emptyDB with zones := [{ id := "zone-eu", status := "OK" }] }

def inC3 : CreateTransferInput :=
  { request_id := "r1", payload_hash := "h1", from_account := "a",
    to_account := "b", amount_units := 120, zone_id := "zone-eu" }

instance : IsTotal SpoolRow (fun a b => a.created_at ≤ b.created_at) :=
  ⟨fun a b => Nat.le_total a.created_at b.created_at⟩

instance : IsTrans SpoolRow (fun a b => a.created_at ≤ b.created_at) :=
  ⟨fun _ _ _ => Nat.le_trans⟩

def dbC7 : DB :=
  { emptyDB with
    zones := [{ id := "zone-af", status := "DOWN" }],
    spooled := [{ id := "uuid-3", request_id := "r2", payload_hash := "h2",
                  from_account := "a", to_account := "b", amount_units := 60,
                  zone_id := "zone-af", status := "PENDING",
                  fail_reason := some "zone down", created_at := 4 }] }

def dbC8 : DB :=
  { emptyDB with
    zones := [{ id := "zone-af", status := "OK" }],
    spooled :=
      [{ id := "uuid-3", request_id := "r2", payload_hash := "h2",
         from_account := "a", to_account := "b", amount_units := 60,
         zone_id := "zone-af", status := "PENDING",
         fail_reason := some "zone down", created_at := 8 },
       { id := "uuid-4", request_id := "r3", payload_hash := "h3",
         from_account := "a", to_account := "b", amount_units := 61,
         zone_id := "zone-af", status := "PENDING",
         fail_reason := some "zone down", created_at := 4 },
       { id := "uuid-5", request_id := "r4", payload_hash := "h4",
         from_account := "a", to_account := "b", amount_units := 62,
         zone_id := "zone-eu", status := "PENDING",
         fail_reason := some "throttled", created_at := 2 },
       { id := "uuid-6", request_id := "r5", payload_hash := "h5",
         from_account := "a", to_account := "b", amount_units := 63,
         zone_id := "zone-af", status := "APPLIED",
         fail_reason := none, created_at := 1 }] }

instance : IsTotal OutboxRow (fun a b => a.created_at ≤ b.created_at) :=
  ⟨fun a b => Nat.le_total a.created_at b.created_at⟩

instance : IsTrans OutboxRow (fun a b => a.created_at ≤ b.created_at) :=
  ⟨fun _ _ _ => Nat.le_trans⟩

def dbC9 : DB :=
  { emptyDB with outbox :=
      [{ id := "uuid-11", event_type := "TRANSFER_POSTED",
         payload := { event_id := some "generated_by_db", transaction_id := "uuid-10",
                      zone_id := "zone-eu", amount_units := 120, created_at := 5 },
         created_at := 5, published_at := none },
       { id := "uuid-13", event_type := "TRANSFER_POSTED",
         payload := { event_id := some "uuid-13", transaction_id := "uuid-12",
                      zone_id := "zone-eu", amount_units := 60, created_at := 2 },
         created_at := 2, published_at := some 3 }] }

def pubOkC9 : String → Bool := fun _ => true

def markOkC9 : String → Bool := fun _ => true

def msgC1 : ConsumerMsg :=
  { decoded := some { event_id := "e1", transaction_id := "t1",
                      zone_id := "zone-eu", amount_units := 3600 },
    headerMsgId := "e1" }

theorem find?_eq_some_of_unique {α} {p : α → Bool} {l : List α} {a : α}
    (ha : a ∈ l) (hpa : p a = true) (huniq : ∀ b ∈ l, p b = true → b = a) :
    l.find? p = some a := by
  induction l with
  | nil => cases ha
  | cons x xs ih =>
    by_cases hpx : p x = true
    · have hxa : x = a := huniq x (List.mem_cons_self x xs) hpx
      subst hxa
      simp [List.find?, hpa]
    · have hax : a ≠ x := fun h => hpx (h ▸ hpa)
      have ha' : a ∈ xs := by
        rcases List.mem_cons.mp ha with h | h
        · exact absurd h hax
        · exact h
      have huniq' : ∀ b ∈ xs, p b = true → b = a :=
        fun b hb hpb => huniq b (List.mem_cons_of_mem x hb) hpb
      simp only [List.find?]
      rw [Bool.eq_false_iff.mpr hpx]
      exact ih ha' huniq'

theorem find?_eq_none_of {α} {p : α → Bool} {l : List α}
    (h : ∀ x ∈ l, ¬ p x = true) : l.find? p = none :=
  List.find?_eq_none.mpr h

theorem find?_of_exists {α} {p : α → Bool} {l : List α}
    (h : ∃ x ∈ l, p x = true) : ∃ y, l.find? p = some y ∧ y ∈ l ∧ p y = true := by
  cases hf : l.find? p with
  | none =>
    obtain ⟨x, hx, hpx⟩ := h
    exact absurd hpx (List.find?_eq_none.mp hf x hx)
  | some y =>
    exact ⟨y, rfl, List.mem_of_find?_eq_some hf, List.find?_some hf⟩

theorem lookupBalance_upsert_self (l : List BalanceRow) (a : String) (d : Int) :
    lookupBalance (upsertBalance l a d) a = lookupBalance l a + d := by
  induction l with
  | nil => simp [upsertBalance, lookupBalance, List.find?]
  | cons b bs ih =>
    by_cases h : b.account_id = a
    · simp [upsertBalance, h, lookupBalance, List.find?]
    · simp only [upsertBalance, h, if_false]
      have hb : (decide (b.account_id = a)) = false := by simp [h]
      simp only [lookupBalance, List.find?, hb] at ih ⊢
      exact ih

theorem lookupBalance_upsert_other (l : List BalanceRow) (a : String) (d : Int)
    (a' : String) (h : a' ≠ a) :
    lookupBalance (upsertBalance l a d) a' = lookupBalance l a' := by
  have h2 : ¬(a = a') := fun hh => h hh.symm
  induction l with
  | nil => simp [upsertBalance, lookupBalance, List.find?, h2]
  | cons b bs ih =>
    by_cases hb : b.account_id = a
    · have hb' : (decide (a = a')) = false := by simp [h2]
      simp [upsertBalance, hb, lookupBalance, List.find?, hb']
    · simp only [upsertBalance, hb, if_false]
      by_cases hba : b.account_id = a'
      · simp [lookupBalance, List.find?, hba]
      · have hba' : (decide (b.account_id = a')) = false := by simp [hba]
        simp only [lookupBalance, List.find?, hba'] at ih ⊢
        exact ih

/-! ## Step lemmas: the branches of `CreateTransfer` -/

theorem spoolTransferTx_fresh
    (db : DB) (i : CreateTransferInput) (failReason : String) (now : Nat)
    (hfS : db.spooled.find? (fun u => u.request_id = i.request_id) = none) :
    spoolTransferTx db i failReason now =
      .ok ("uuid-" ++ Nat.repr db.nextId,
        { db with
          nextId := db.nextId + 1,
          spooled := db.spooled ++
            [{ id := "uuid-" ++ Nat.repr db.nextId, request_id := i.request_id,
               payload_hash := i.payload_hash, from_account := i.from_account,
               to_account := i.to_account, amount_units := i.amount_units,
               zone_id := i.zone_id, status := "PENDING",
               fail_reason := some failReason, created_at := now }],
          audit := db.audit ++
            [{ actor := "system", action := "SPOOL_TRANSFER", target_type := "zone",
               target_id := i.zone_id, reason := some failReason }] }) := by
  unfold spoolTransferTx
  rw [hfS]
  rfl

theorem CreateTransfer_hitA
    (db : DB) (i : CreateTransferInput) (now : Nat) (st : String) (t : TxnRow)
    (hz : zoneStatus db i.zone_id = some st)
    (hfind : db.transactions.find? (fun u => u.request_id = i.request_id) = some t)
    (hhash : t.payload_hash = i.payload_hash) :
    CreateTransfer db i now = (.ok (.applied t.id i.request_id t.created_at),
      { db with zone_controls := materializeControls db.zone_controls i.zone_id }) := by
  unfold CreateTransfer
  rw [hz, hfind]
  simp [hhash]

theorem CreateTransfer_conflictA
    (db : DB) (i : CreateTransferInput) (now : Nat) (st : String) (t : TxnRow)
    (hz : zoneStatus db i.zone_id = some st)
    (hfind : db.transactions.find? (fun u => u.request_id = i.request_id) = some t)
    (hne : t.payload_hash ≠ i.payload_hash) :
    CreateTransfer db i now = (.error .idempotencyConflict, db) := by
  unfold CreateTransfer
  rw [hz, hfind]
  simp [hne]

theorem CreateTransfer_conflictB
    (db : DB) (i : CreateTransferInput) (now : Nat) (st : String) (s : SpoolRow)
    (hz : zoneStatus db i.zone_id = some st)
    (hfT : db.transactions.find? (fun u => u.request_id = i.request_id) = none)
    (hfS : db.spooled.find? (fun u => u.request_id = i.request_id) = some s)
    (hne : s.payload_hash ≠ i.payload_hash) :
    CreateTransfer db i now = (.error .idempotencyConflict, db) := by
  unfold CreateTransfer
  rw [hz, hfT, hfS]
  simp [hne]

theorem CreateTransfer_blocked
    (db : DB) (i : CreateTransferInput) (now : Nat) (st : String)
    (hz : zoneStatus db i.zone_id = some st)
    (hfT : db.transactions.find? (fun u => u.request_id = i.request_id) = none)
    (hfS : db.spooled.find? (fun u => u.request_id = i.request_id) = none)
    (hblock : blockedReason st (getControls db.zone_controls i.zone_id) i.request_id ≠ "") :
    CreateTransfer db i now =
      (if (getControls db.zone_controls i.zone_id).spool_enabled then
        match spoolTransferTx
            { db with zone_controls := materializeControls db.zone_controls i.zone_id } i
            (blockedReason st (getControls db.zone_controls i.zone_id) i.request_id) now with
        | .error e => (.error e, db)
        | .ok (spoolId, db2) => (.ok (.spooled spoolId), db2)
      else if st = "DOWN" then (.error .zoneDown, db)
      else (.error .zoneBlocked, db)) := by
  unfold CreateTransfer
  rw [hz, hfT, hfS]
  simp only [hblock, if_true, ite_not]
  by_cases hsp : (getControls db.zone_controls i.zone_id).spool_enabled = true
  · simp [hsp]
  · simp [hsp]

theorem CreateTransfer_applies
    (db : DB) (i : CreateTransferInput) (now : Nat) (st : String)
    (hz : zoneStatus db i.zone_id = some st)
    (hfT : db.transactions.find? (fun u => u.request_id = i.request_id) = none)
    (hfS : db.spooled.find? (fun u => u.request_id = i.request_id) = none)
    (hopen : blockedReason st (getControls db.zone_controls i.zone_id) i.request_id = "") :
    CreateTransfer db i now =
      (.ok (.applied (applyTransferTx
          (ensureAccounts
            { db with zone_controls := materializeControls db.zone_controls i.zone_id } i)
          i now).1 i.request_id now),
       (applyTransferTx
          (ensureAccounts
            { db with zone_controls := materializeControls db.zone_controls i.zone_id } i)
          i now).2) := by
  unfold CreateTransfer
  rw [hz, hfT, hfS]
  simp [hopen]

/-! ## Claim theorems -/

/-- C4: the gating decision of `CreateTransfer` is the deterministic function
`blockedReason` of the zone status, the zone controls and the `request_id`
alone, and it coincides everywhere with the specification's case analysis:
"zone down" when DOWN, else "writes blocked" when `writes_blocked`, else —
when `cross_zone_throttle < 100` — "throttled" exactly when the throttle is 0
or `fnv1a32(request_id) mod 100 ≥ cross_zone_throttle`, else empty.  Being a
pure function of these inputs, the decision is identical on every retry with
the same `request_id` and controls. -/
theorem C4_gating_deterministic (status : String) (c : ZoneControlsRow) (requestId : String) :
    blockedReason status c requestId = blockedReasonSpec status c requestId := by
  unfold blockedReason blockedReasonSpec
  by_cases h1 : status = "DOWN"
  · simp [h1]
  · simp only [h1, if_false]
    by_cases h2 : c.writes_blocked = true
    · simp [h2]
    · simp only [h2, if_false]
      by_cases h3 : c.cross_zone_throttle < 100
      · simp only [h3, if_true]
        by_cases h4 : c.cross_zone_throttle ≤ 0
        · by_cases h5 : c.cross_zone_throttle = 0
          · simp [h4, h5]
          · have hlt : c.cross_zone_throttle < 0 := lt_of_le_of_ne h4 h5
            have hge : (hashPercent requestId : Int) ≥ c.cross_zone_throttle :=
              le_trans (le_of_lt hlt) (Int.ofNat_nonneg _)
            simp [h4, h5, hge]
        · have h5 : c.cross_zone_throttle ≠ 0 := by omega
          simp [h4, h5]
      · simp [h3]

/-- C10: `ApplyIncidentAction` places no precondition on the incident's
current status: for any stored incident and any action among ACK, ASSIGN,
RESOLVE with a non-empty actor (and non-empty assignee when assigning), the
action succeeds, with ACK setting the status to "ACK", RESOLVE to
"RESOLVED" and ASSIGN leaving it unchanged — in particular a RESOLVED
incident is moved back to "ACK" by a later ACK. -/
theorem C10_incident_action_unguarded
    (db : DB) (incidentId : String) (a : IncidentAction) (now : Nat) (inc : IncidentRow)
    (hmem : inc ∈ db.incidents) (hid : inc.id = incidentId)
    (huniq : ∀ j ∈ db.incidents, j.id = incidentId → j = inc)
    (hactor : a.actor ≠ "")
    (haction : a.action = "ACK" ∨ a.action = "ASSIGN" ∨ a.action = "RESOLVE")
    (hassign : a.action = "ASSIGN" → a.assignee ≠ "") :
    ∃ out, (ApplyIncidentAction db incidentId a now).1 = .ok out ∧
      out.status = (if a.action = "ACK" then "ACK"
                    else if a.action = "RESOLVE" then "RESOLVED" else inc.status) := by
  have hfind : db.incidents.find? (fun i => i.id = incidentId) = some inc := by
    apply find?_eq_some_of_unique hmem
    · simp [hid]
    · intro b hb hpb
      exact huniq b hb (by simpa using hpb)
  have hno : ¬(a.action = "ASSIGN" ∧ a.assignee = "") := by
    rintro ⟨h1, h2⟩
    exact hassign h1 h2
  have hval : ¬¬(a.action = "ACK" ∨ a.action = "ASSIGN" ∨ a.action = "RESOLVE") :=
    not_not_intro haction
  unfold ApplyIncidentAction
  rw [if_neg hactor, if_neg hval, if_neg hno, hfind]
  exact ⟨_, rfl, rfl⟩

/-- Witness for C10: a RESOLVED incident is moved back to ACK. -/
theorem C10_incident_action_unguarded_witness :
    ∃ out, (ApplyIncidentAction dbC10 "i1" actC10 7).1 = .ok out ∧
      out.status = (if actC10.action = "ACK" then "ACK"
                    else if actC10.action = "RESOLVE" then "RESOLVED" else incC10.status) :=
  C10_incident_action_unguarded dbC10 "i1" actC10 7 incC10
    (by decide) (by decide) (by decide) (by decide) (by decide) (by decide)

/-- C5: a `CreateTransfer` whose `request_id` already has a committed
transaction with the same `payload_hash` returns that applied transaction
(same id and `created_at`), for any zone status and any controls — the
transactions probe decides before the spool probe and before spooling — and
no ledger table changes. -/
theorem C5_applied_hit_wins
    (db : DB) (i : CreateTransferInput) (now : Nat) (t : TxnRow)
    (hz : ∃ st, zoneStatus db i.zone_id = some st)
    (hmem : t ∈ db.transactions) (hreq : t.request_id = i.request_id)
    (hhash : t.payload_hash = i.payload_hash)
    (huniq : ∀ u ∈ db.transactions, u.request_id = i.request_id → u = t) :
    (CreateTransfer db i now).1 = .ok (.applied t.id i.request_id t.created_at) ∧
    (CreateTransfer db i now).2.transactions = db.transactions ∧
    (CreateTransfer db i now).2.postings = db.postings ∧
    (CreateTransfer db i now).2.balances = db.balances ∧
    (CreateTransfer db i now).2.outbox = db.outbox ∧
    (CreateTransfer db i now).2.spooled = db.spooled ∧
    (CreateTransfer db i now).2.accounts = db.accounts ∧
    (CreateTransfer db i now).2.incidents = db.incidents ∧
    (CreateTransfer db i now).2.audit = db.audit := by
  obtain ⟨st, hz⟩ := hz
  have hfind : db.transactions.find? (fun u => u.request_id = i.request_id) = some t := by
    apply find?_eq_some_of_unique hmem
    · simp [hreq]
    · intro b hb hpb
      exact huniq b hb (by simpa using hpb)
  rw [CreateTransfer_hitA db i now st t hz hfind hhash]
  exact ⟨rfl, rfl, rfl, rfl, rfl, rfl, rfl, rfl, rfl⟩

/-- Witness for C5: the applied hit is returned even while the zone is DOWN
with writes blocked, throttle 0 and spooling enabled. -/
theorem C5_applied_hit_wins_witness :
    (CreateTransfer dbC5 inC5 9).1 = .ok (.applied txnC5.id inC5.request_id txnC5.created_at) ∧
    (CreateTransfer dbC5 inC5 9).2.transactions = dbC5.transactions ∧
    (CreateTransfer dbC5 inC5 9).2.postings = dbC5.postings ∧
    (CreateTransfer dbC5 inC5 9).2.balances = dbC5.balances ∧
    (CreateTransfer dbC5 inC5 9).2.outbox = dbC5.outbox ∧
    (CreateTransfer dbC5 inC5 9).2.spooled = dbC5.spooled ∧
    (CreateTransfer dbC5 inC5 9).2.accounts = dbC5.accounts ∧
    (CreateTransfer dbC5 inC5 9).2.incidents = dbC5.incidents ∧
    (CreateTransfer dbC5 inC5 9).2.audit = dbC5.audit :=
  C5_applied_hit_wins dbC5 inC5 9 txnC5 ⟨"DOWN", rfl⟩ (by decide) (by decide)
    (by decide) (by decide)

/-- Counterexample to C2 as stated: the zone gate runs before the
idempotency probes, so a retry of request "r1" with a different payload
hash but an unknown `zone_id` fails with ZoneUnknown, not with
IdempotencyConflict. -/
theorem C2_counterexample :
    (CreateTransfer { emptyDB with
        zones := [{ id := "zone-eu", status := "OK" }],
        transactions := [txnC5] }
      { request_id := "r1", payload_hash := "h2", from_account := "a",
        to_account := "b", amount_units := 120, zone_id := "zone-xx" } 9).1
      = .error .zoneUnknown ∧
    (CreateTransfer { emptyDB with
        zones := [{ id := "zone-eu", status := "OK" }],
        transactions := [txnC5] }
      { request_id := "r1", payload_hash := "h2", from_account := "a",
        to_account := "b", amount_units := 120, zone_id := "zone-xx" } 9).1
      ≠ .error .idempotencyConflict := by
  refine ⟨rfl, ?_⟩
  intro h
  rw [show (CreateTransfer { emptyDB with
        zones := [{ id := "zone-eu", status := "OK" }],
        transactions := [txnC5] }
      { request_id := "r1", payload_hash := "h2", from_account := "a",
        to_account := "b", amount_units := 120, zone_id := "zone-xx" } 9).1
      = Except.error LedgerErr.zoneUnknown from rfl] at h
  injection h with h'
  exact LedgerErr.noConfusion h'

/-- C2 (amended): provided the request's `zone_id` names an existing zone,
a `CreateTransfer` whose `request_id` already exists in `transactions` with
a different `payload_hash` — or is absent from `transactions` and exists in
`spooled_transfers` with a different `payload_hash` — fails with
IdempotencyConflict and leaves the stored state exactly unchanged. -/
theorem C2_conflict_amended
    (db : DB) (i : CreateTransferInput) (now : Nat)
    (hz : ∃ st, zoneStatus db i.zone_id = some st)
    (hdisj :
      ((∃ t ∈ db.transactions, t.request_id = i.request_id) ∧
        ∀ t ∈ db.transactions, t.request_id = i.request_id →
          t.payload_hash ≠ i.payload_hash) ∨
      ((∀ t ∈ db.transactions, t.request_id ≠ i.request_id) ∧
        (∃ s ∈ db.spooled, s.request_id = i.request_id) ∧
        ∀ s ∈ db.spooled, s.request_id = i.request_id →
          s.payload_hash ≠ i.payload_hash)) :
    CreateTransfer db i now = (.error .idempotencyConflict, db) := by
  obtain ⟨st, hz⟩ := hz
  rcases hdisj with ⟨⟨t, ht, hreq⟩, hall⟩ | ⟨hnoT, ⟨s, hs, hsreq⟩, hallS⟩
  · obtain ⟨y, hfy, hymem, hpy⟩ :=
      find?_of_exists (p := fun u => u.request_id = i.request_id)
        ⟨t, ht, by simp [hreq]⟩
    have hyne : y.payload_hash ≠ i.payload_hash := hall y hymem (by simpa using hpy)
    exact CreateTransfer_conflictA db i now st y hz hfy hyne
  · have hfT : db.transactions.find? (fun u => u.request_id = i.request_id) = none :=
      find?_eq_none_of (fun x hx => by simpa using hnoT x hx)
    obtain ⟨y, hfy, hymem, hpy⟩ :=
      find?_of_exists (p := fun u => u.request_id = i.request_id)
        ⟨s, hs, by simp [hsreq]⟩
    have hyne : y.payload_hash ≠ i.payload_hash := hallS y hymem (by simpa using hpy)
    exact CreateTransfer_conflictB db i now st y hz hfT hfy hyne

/-- Witness for the amended C2: same request id, different hash, valid zone
— the call conflicts and the state is untouched. -/
theorem C2_conflict_amended_witness :
    CreateTransfer dbC2w inC2w 9 = (.error .idempotencyConflict, dbC2w) :=
  C2_conflict_amended dbC2w inC2w 9 ⟨"OK", rfl⟩
    (Or.inl ⟨⟨txnC5, by decide, by decide⟩, by decide⟩)

/-- C6: a `CreateTransfer` with a fresh `request_id` and a non-empty
`blockedReason` spools when `spool_enabled` is set — one new PENDING spool
row whose `fail_reason` is the blocked reason, one `SPOOL_TRANSFER` audit
row, all other tables untouched, and the spool id is returned — and is
rejected otherwise: ZoneDown when the zone is DOWN, ZoneBlocked else, with
the state exactly unchanged. -/
theorem C6_blocked_spools_or_rejects
    (db : DB) (i : CreateTransferInput) (now : Nat) (st : String)
    (hz : zoneStatus db i.zone_id = some st)
    (hfreshT : ∀ t ∈ db.transactions, t.request_id ≠ i.request_id)
    (hfreshS : ∀ s ∈ db.spooled, s.request_id ≠ i.request_id)
    (hblock : blockedReason st (getControls db.zone_controls i.zone_id) i.request_id ≠ "") :
    ((getControls db.zone_controls i.zone_id).spool_enabled = true →
      ∃ sid,
        (CreateTransfer db i now).1 = .ok (.spooled sid) ∧
        (CreateTransfer db i now).2.spooled = db.spooled ++
          [{ id := sid, request_id := i.request_id, payload_hash := i.payload_hash,
             from_account := i.from_account, to_account := i.to_account,
             amount_units := i.amount_units, zone_id := i.zone_id,
             status := "PENDING",
             fail_reason := some (blockedReason st
               (getControls db.zone_controls i.zone_id) i.request_id),
             created_at := now }] ∧
        (CreateTransfer db i now).2.audit = db.audit ++
          [{ actor := "system", action := "SPOOL_TRANSFER", target_type := "zone",
             target_id := i.zone_id,
             reason := some (blockedReason st
               (getControls db.zone_controls i.zone_id) i.request_id) }] ∧
        (CreateTransfer db i now).2.transactions = db.transactions ∧
        (CreateTransfer db i now).2.postings = db.postings ∧
        (CreateTransfer db i now).2.balances = db.balances ∧
        (CreateTransfer db i now).2.outbox = db.outbox ∧
        (CreateTransfer db i now).2.incidents = db.incidents) ∧
    ((getControls db.zone_controls i.zone_id).spool_enabled = false →
      CreateTransfer db i now =
        (.error (if st = "DOWN" then LedgerErr.zoneDown else LedgerErr.zoneBlocked), db)) := by
  have hfT : db.transactions.find? (fun u => u.request_id = i.request_id) = none :=
    find?_eq_none_of (fun x hx => by simpa using hfreshT x hx)
  have hfS : db.spooled.find? (fun u => u.request_id = i.request_id) = none :=
    find?_eq_none_of (fun x hx => by simpa using hfreshS x hx)
  have hstep := CreateTransfer_blocked db i now st hz hfT hfS hblock
  constructor
  · intro hsp
    rw [if_pos hsp] at hstep
    have hspool := spoolTransferTx_fresh
      { db with zone_controls := materializeControls db.zone_controls i.zone_id }
      i (blockedReason st (getControls db.zone_controls i.zone_id) i.request_id) now
      (by simpa using hfS)
    rw [hspool] at hstep
    refine ⟨"uuid-" ++ Nat.repr db.nextId, ?_, ?_, ?_, ?_, ?_, ?_, ?_, ?_⟩ <;>
      rw [hstep]
  · intro hsp
    rw [if_neg (by simp [hsp])] at hstep
    rw [hstep]
    by_cases hd : st = "DOWN"
    · rw [if_pos hd, if_pos hd]
    · rw [if_neg hd, if_neg hd]

/-- Witness for C6: a DOWN zone with spooling enabled spools the transfer. -/
theorem C6_blocked_spools_or_rejects_witness :
    ((getControls dbC6.zone_controls inC6.zone_id).spool_enabled = true →
      ∃ sid,
        (CreateTransfer dbC6 inC6 4).1 = .ok (.spooled sid) ∧
        (CreateTransfer dbC6 inC6 4).2.spooled = dbC6.spooled ++
          [{ id := sid, request_id := inC6.request_id, payload_hash := inC6.payload_hash,
             from_account := inC6.from_account, to_account := inC6.to_account,
             amount_units := inC6.amount_units, zone_id := inC6.zone_id,
             status := "PENDING",
             fail_reason := some (blockedReason "DOWN"
               (getControls dbC6.zone_controls inC6.zone_id) inC6.request_id),
             created_at := 4 }] ∧
        (CreateTransfer dbC6 inC6 4).2.audit = dbC6.audit ++
          [{ actor := "system", action := "SPOOL_TRANSFER", target_type := "zone",
             target_id := inC6.zone_id,
             reason := some (blockedReason "DOWN"
               (getControls dbC6.zone_controls inC6.zone_id) inC6.request_id) }] ∧
        (CreateTransfer dbC6 inC6 4).2.transactions = dbC6.transactions ∧
        (CreateTransfer dbC6 inC6 4).2.postings = dbC6.postings ∧
        (CreateTransfer dbC6 inC6 4).2.balances = dbC6.balances ∧
        (CreateTransfer dbC6 inC6 4).2.outbox = dbC6.outbox ∧
        (CreateTransfer dbC6 inC6 4).2.incidents = dbC6.incidents) ∧
    ((getControls dbC6.zone_controls inC6.zone_id).spool_enabled = false →
      CreateTransfer dbC6 inC6 4 =
        (.error (if "DOWN" = "DOWN" then LedgerErr.zoneDown else LedgerErr.zoneBlocked),
         dbC6)) :=
  C6_blocked_spools_or_rejects dbC6 inC6 4 "DOWN" rfl
    (by decide) (by decide) (by decide)

/-- C3: an applying `CreateTransfer` (zone known, empty `blockedReason`,
fresh `request_id`, distinct accounts, positive amount per the schema CHECK)
inserts, atomically in the model, exactly one transactions row, exactly two
postings — a DEBIT on `from_account` and a CREDIT on `to_account`, both with
the transfer's amount — moves the balances by `from -= amount` and
`to += amount` while touching no other account, and inserts exactly one
outbox row of type TRANSFER_POSTED whose payload carries the sentinel
event id "generated_by_db", the transaction id, the zone, the amount and
`created_at`. -/
theorem C3_apply_atomic_effects
    (db : DB) (i : CreateTransferInput) (now : Nat) (st : String)
    (hz : zoneStatus db i.zone_id = some st)
    (hfreshT : ∀ t ∈ db.transactions, t.request_id ≠ i.request_id)
    (hfreshS : ∀ s ∈ db.spooled, s.request_id ≠ i.request_id)
    (hopen : blockedReason st (getControls db.zone_controls i.zone_id) i.request_id = "")
    (hne : i.from_account ≠ i.to_account)
    (_ham : 0 < i.amount_units) :
    ∃ tid oid,
      (CreateTransfer db i now).1 = .ok (.applied tid i.request_id now) ∧
      (CreateTransfer db i now).2.transactions = db.transactions ++
        [{ id := tid, request_id := i.request_id, payload_hash := i.payload_hash,
           from_account := i.from_account, to_account := i.to_account,
           amount_units := i.amount_units, zone_id := i.zone_id, created_at := now }] ∧
      (CreateTransfer db i now).2.postings = db.postings ++
        [{ txn_id := tid, account_id := i.from_account, direction := "DEBIT",
           amount_units := i.amount_units },
         { txn_id := tid, account_id := i.to_account, direction := "CREDIT",
           amount_units := i.amount_units }] ∧
      balanceOf (CreateTransfer db i now).2 i.from_account =
        balanceOf db i.from_account - i.amount_units ∧
      balanceOf (CreateTransfer db i now).2 i.to_account =
        balanceOf db i.to_account + i.amount_units ∧
      (∀ a, a ≠ i.from_account → a ≠ i.to_account →
        balanceOf (CreateTransfer db i now).2 a = balanceOf db a) ∧
      (CreateTransfer db i now).2.outbox = db.outbox ++
        [{ id := oid, event_type := "TRANSFER_POSTED",
           payload := { event_id := some "generated_by_db", transaction_id := tid,
                        zone_id := i.zone_id, amount_units := i.amount_units,
                        created_at := now },
           created_at := now, published_at := none }] ∧
      (CreateTransfer db i now).2.spooled = db.spooled ∧
      (CreateTransfer db i now).2.incidents = db.incidents ∧
      (CreateTransfer db i now).2.audit = db.audit := by
  have hfT : db.transactions.find? (fun u => u.request_id = i.request_id) = none :=
    find?_eq_none_of (fun x hx => by simpa using hfreshT x hx)
  have hfS : db.spooled.find? (fun u => u.request_id = i.request_id) = none :=
    find?_eq_none_of (fun x hx => by simpa using hfreshS x hx)
  have hstep := CreateTransfer_applies db i now st hz hfT hfS hopen
  rw [hstep]
  have hbal : (applyTransferTx
      (ensureAccounts
        { db with zone_controls := materializeControls db.zone_controls i.zone_id } i)
      i now).2.balances =
      upsertBalance (upsertBalance db.balances i.from_account (-i.amount_units))
        i.to_account i.amount_units := rfl
  refine ⟨"uuid-" ++ Nat.repr db.nextId, "uuid-" ++ Nat.repr (db.nextId + 1),
    rfl, rfl, rfl, ?_, ?_, ?_, rfl, rfl, rfl, rfl⟩
  · show lookupBalance (upsertBalance (upsertBalance db.balances i.from_account
        (-i.amount_units)) i.to_account i.amount_units) i.from_account =
      lookupBalance db.balances i.from_account - i.amount_units
    rw [lookupBalance_upsert_other _ _ _ _ hne, lookupBalance_upsert_self]
    omega
  · show lookupBalance (upsertBalance (upsertBalance db.balances i.from_account
        (-i.amount_units)) i.to_account i.amount_units) i.to_account =
      lookupBalance db.balances i.to_account + i.amount_units
    rw [lookupBalance_upsert_self, lookupBalance_upsert_other _ _ _ _ (Ne.symm hne)]
  · intro a ha1 ha2
    show lookupBalance (upsertBalance (upsertBalance db.balances i.from_account
        (-i.amount_units)) i.to_account i.amount_units) a = lookupBalance db.balances a
    rw [lookupBalance_upsert_other _ _ _ _ ha2, lookupBalance_upsert_other _ _ _ _ ha1]

/-- Witness for C3 at the spec's happy-path scenario S1. -/
theorem C3_apply_atomic_effects_witness :
    ∃ tid oid,
      (CreateTransfer dbC3 inC3 5).1 = .ok (.applied tid inC3.request_id 5) ∧
      (CreateTransfer dbC3 inC3 5).2.transactions = dbC3.transactions ++
        [{ id := tid, request_id := inC3.request_id, payload_hash := inC3.payload_hash,
           from_account := inC3.from_account, to_account := inC3.to_account,
           amount_units := inC3.amount_units, zone_id := inC3.zone_id, created_at := 5 }] ∧
      (CreateTransfer dbC3 inC3 5).2.postings = dbC3.postings ++
        [{ txn_id := tid, account_id := inC3.from_account, direction := "DEBIT",
           amount_units := inC3.amount_units },
         { txn_id := tid, account_id := inC3.to_account, direction := "CREDIT",
           amount_units := inC3.amount_units }] ∧
      balanceOf (CreateTransfer dbC3 inC3 5).2 inC3.from_account =
        balanceOf dbC3 inC3.from_account - inC3.amount_units ∧
      balanceOf (CreateTransfer dbC3 inC3 5).2 inC3.to_account =
        balanceOf dbC3 inC3.to_account + inC3.amount_units ∧
      (∀ a, a ≠ inC3.from_account → a ≠ inC3.to_account →
        balanceOf (CreateTransfer dbC3 inC3 5).2 a = balanceOf dbC3 a) ∧
      (CreateTransfer dbC3 inC3 5).2.outbox = dbC3.outbox ++
        [{ id := oid, event_type := "TRANSFER_POSTED",
           payload := { event_id := some "generated_by_db", transaction_id := tid,
                        zone_id := inC3.zone_id, amount_units := inC3.amount_units,
                        created_at := 5 },
           created_at := 5, published_at := none }] ∧
      (CreateTransfer dbC3 inC3 5).2.spooled = dbC3.spooled ∧
      (CreateTransfer dbC3 inC3 5).2.incidents = dbC3.incidents ∧
      (CreateTransfer dbC3 inC3 5).2.audit = dbC3.audit :=
  C3_apply_atomic_effects dbC3 inC3 5 "OK" rfl (by decide) (by decide) (by decide)
    (by decide) (by decide)

/-- Every replayed row came from the filter: right zone, PENDING status. -/
theorem replaySelection_mem (db : DB) (zoneId : String) (limit : Int) (s : SpoolRow)
    (hs : s ∈ replaySelection db zoneId limit) :
    s.zone_id = zoneId ∧ s.status = "PENDING" := by
  unfold replaySelection at hs
  have h1 := List.take_subset _ _ hs
  have h2 : s ∈ db.spooled.filter
      (fun u => decide (u.zone_id = zoneId ∧ u.status = "PENDING")) :=
    (List.mem_insertionSort _).mp h1
  have h3 := List.mem_filter.mp h2
  simpa using h3.2

theorem replaySelection_sorted (db : DB) (zoneId : String) (limit : Int) :
    (replaySelection db zoneId limit).Pairwise (fun a b => a.created_at ≤ b.created_at) := by
  unfold replaySelection
  exact List.Pairwise.sublist (List.take_sublist _ _)
    (List.sorted_insertionSort (fun a b : SpoolRow => a.created_at ≤ b.created_at) _)

theorem replaySelection_length (db : DB) (zoneId : String) (limit : Int) :
    (replaySelection db zoneId limit).length ≤ (effLimit limit).toNat := by
  unfold replaySelection
  exact List.length_take_le _ _

theorem effLimit_le_500 (limit : Int) : effLimit limit ≤ 500 := by
  unfold effLimit
  split <;> omega

theorem effLimit_nonpos (limit : Int) (h : limit ≤ 0) : effLimit limit = 50 := by
  unfold effLimit
  split <;> omega

theorem effLimit_le_pos (limit : Int) (h : 0 < limit) : effLimit limit ≤ limit := by
  unfold effLimit
  split <;> omega

/-- The replay loop processes every selected row exactly once: the applied
and failed tallies sum to the selection's length. -/
theorem replayRows_count (now : Nat) :
    ∀ (l : List SpoolRow) (db : DB),
      (replayRows now db l).1 + (replayRows now db l).2.1 = l.length := by
  intro l
  induction l with
  | nil => intro db; rfl
  | cons s rest ih =>
    intro db
    simp only [replayRows]
    rcases hA : ApplyTransferBypass db
      { request_id := s.request_id, payload_hash := s.payload_hash,
        from_account := s.from_account, to_account := s.to_account,
        amount_units := s.amount_units, zone_id := s.zone_id } now with ⟨res, db1⟩
    cases res with
    | ok v =>
      have h2 := ih { db1 with spooled := markSpool db1.spooled s.id "APPLIED" none }
      show (replayRows now
          { db1 with spooled := markSpool db1.spooled s.id "APPLIED" none } rest).1 + 1 +
        (replayRows now
          { db1 with spooled := markSpool db1.spooled s.id "APPLIED" none } rest).2.1 =
        rest.length + 1
      omega
    | error e =>
      have h2 := ih { db1 with
        spooled := markSpool db1.spooled s.id "FAILED" (some (ledgerErrMessage e)) }
      show (replayRows now { db1 with
          spooled := markSpool db1.spooled s.id "FAILED" (some (ledgerErrMessage e)) }
          rest).1 +
        ((replayRows now { db1 with
          spooled := markSpool db1.spooled s.id "FAILED" (some (ledgerErrMessage e)) }
          rest).2.1 + 1) =
        rest.length + 1
      omega

/-- Step lemma: the NotReady branch of `ReplaySpool`. -/
theorem ReplaySpool_notReady
    (db : DB) (zoneId : String) (limit : Int) (actor reason : String) (now : Nat)
    (st : String) (hz : zoneStatus db zoneId = some st)
    (hcond : st = "DOWN" ∨ (getControls db.zone_controls zoneId).writes_blocked = true ∨
      (getControls db.zone_controls zoneId).cross_zone_throttle = 0) :
    ReplaySpool db zoneId limit actor reason now =
      (.error .notReady,
       { db with zone_controls := materializeControls db.zone_controls zoneId }) := by
  unfold ReplaySpool
  rw [hz]
  simp [hcond]

/-- Step lemma: the ready branch of `ReplaySpool` runs the replay loop over
`replaySelection` and appends the summary audit row. -/
theorem ReplaySpool_ready
    (db : DB) (zoneId : String) (limit : Int) (actor reason : String) (now : Nat)
    (st : String) (hz : zoneStatus db zoneId = some st)
    (hready : ¬(st = "DOWN" ∨ (getControls db.zone_controls zoneId).writes_blocked = true ∨
      (getControls db.zone_controls zoneId).cross_zone_throttle = 0)) :
    ReplaySpool db zoneId limit actor reason now =
      (.ok { zone_id := zoneId,
             applied := (replayRows now
               { db with zone_controls := materializeControls db.zone_controls zoneId }
               (replaySelection db zoneId limit)).1,
             failed := (replayRows now
               { db with zone_controls := materializeControls db.zone_controls zoneId }
               (replaySelection db zoneId limit)).2.1 },
       { (replayRows now
            { db with zone_controls := materializeControls db.zone_controls zoneId }
            (replaySelection db zoneId limit)).2.2 with
         audit := (replayRows now
            { db with zone_controls := materializeControls db.zone_controls zoneId }
            (replaySelection db zoneId limit)).2.2.audit ++
          [{ actor := actor, action := "REPLAY_SPOOL", target_type := "zone",
             target_id := zoneId, reason := some reason }] }) := by
  unfold ReplaySpool
  rw [hz]
  simp [hready]
  repeat' constructor

/-- C7: `ReplaySpool` fails with NotReady — replaying nothing and leaving
every table other than the materialized controls untouched — exactly when
the zone is DOWN, or writes are blocked, or the throttle is 0; when none of
these holds it is not rejected for readiness and returns a result. -/
theorem C7_replay_readiness
    (db : DB) (zoneId : String) (limit : Int) (actor reason : String) (now : Nat)
    (st : String) (hz : zoneStatus db zoneId = some st) :
    ((st = "DOWN" ∨ (getControls db.zone_controls zoneId).writes_blocked = true ∨
        (getControls db.zone_controls zoneId).cross_zone_throttle = 0) →
      (ReplaySpool db zoneId limit actor reason now).1 = .error .notReady ∧
      (ReplaySpool db zoneId limit actor reason now).2.spooled = db.spooled ∧
      (ReplaySpool db zoneId limit actor reason now).2.transactions = db.transactions ∧
      (ReplaySpool db zoneId limit actor reason now).2.postings = db.postings ∧
      (ReplaySpool db zoneId limit actor reason now).2.balances = db.balances ∧
      (ReplaySpool db zoneId limit actor reason now).2.outbox = db.outbox ∧
      (ReplaySpool db zoneId limit actor reason now).2.audit = db.audit) ∧
    (¬(st = "DOWN" ∨ (getControls db.zone_controls zoneId).writes_blocked = true ∨
        (getControls db.zone_controls zoneId).cross_zone_throttle = 0) →
      ∃ r, (ReplaySpool db zoneId limit actor reason now).1 = .ok r) := by
  constructor
  · intro hcond
    rw [ReplaySpool_notReady db zoneId limit actor reason now st hz hcond]
    exact ⟨rfl, rfl, rfl, rfl, rfl, rfl, rfl⟩
  · intro hready
    rw [ReplaySpool_ready db zoneId limit actor reason now st hz hready]
    exact ⟨_, rfl⟩

/-- Witness for C7: replay on a DOWN zone is NotReady and replays nothing. -/
theorem C7_replay_readiness_witness :
    (ReplaySpool dbC7 "zone-af" 10 "op" "retry" 9).1 = .error .notReady ∧
    (ReplaySpool dbC7 "zone-af" 10 "op" "retry" 9).2.spooled = dbC7.spooled ∧
    (ReplaySpool dbC7 "zone-af" 10 "op" "retry" 9).2.transactions = dbC7.transactions ∧
    (ReplaySpool dbC7 "zone-af" 10 "op" "retry" 9).2.postings = dbC7.postings ∧
    (ReplaySpool dbC7 "zone-af" 10 "op" "retry" 9).2.balances = dbC7.balances ∧
    (ReplaySpool dbC7 "zone-af" 10 "op" "retry" 9).2.outbox = dbC7.outbox ∧
    (ReplaySpool dbC7 "zone-af" 10 "op" "retry" 9).2.audit = dbC7.audit :=
  (C7_replay_readiness dbC7 "zone-af" 10 "op" "retry" 9 "DOWN" rfl).1 (Or.inl rfl)

/-- C8: a proceeding `ReplaySpool` processes exactly the rows of
`replaySelection`: only PENDING rows of the requested zone, in ascending
`created_at` order, at most the effective limit many — where a non-positive
caller limit defaults to 50, the effective limit never exceeds 500, and
never exceeds a positive caller limit. -/
theorem C8_replay_selection
    (db : DB) (zoneId : String) (limit : Int) (actor reason : String) (now : Nat)
    (st : String) (hz : zoneStatus db zoneId = some st)
    (hready : ¬(st = "DOWN" ∨ (getControls db.zone_controls zoneId).writes_blocked = true ∨
        (getControls db.zone_controls zoneId).cross_zone_throttle = 0)) :
    (∃ r, (ReplaySpool db zoneId limit actor reason now).1 = .ok r ∧
      r.applied + r.failed = (replaySelection db zoneId limit).length) ∧
    (∀ s ∈ replaySelection db zoneId limit, s.zone_id = zoneId ∧ s.status = "PENDING") ∧
    (replaySelection db zoneId limit).Pairwise (fun a b => a.created_at ≤ b.created_at) ∧
    (replaySelection db zoneId limit).length ≤ (effLimit limit).toNat ∧
    effLimit limit ≤ 500 ∧
    (limit ≤ 0 → effLimit limit = 50) ∧
    (0 < limit → effLimit limit ≤ limit) := by
  refine ⟨?_, fun s hs => replaySelection_mem db zoneId limit s hs,
    replaySelection_sorted db zoneId limit, replaySelection_length db zoneId limit,
    effLimit_le_500 limit, effLimit_nonpos limit, effLimit_le_pos limit⟩
  rw [ReplaySpool_ready db zoneId limit actor reason now st hz hready]
  exact ⟨_, rfl, replayRows_count now (replaySelection db zoneId limit)
    { db with zone_controls := materializeControls db.zone_controls zoneId }⟩

/-- Witness for C8 on a recovered zone with a mixed spool. -/
theorem C8_replay_selection_witness :
    (∃ r, (ReplaySpool dbC8 "zone-af" 0 "op" "retry" 9).1 = .ok r ∧
      r.applied + r.failed = (replaySelection dbC8 "zone-af" 0).length) ∧
    (∀ s ∈ replaySelection dbC8 "zone-af" 0, s.zone_id = "zone-af" ∧ s.status = "PENDING") ∧
    (replaySelection dbC8 "zone-af" 0).Pairwise (fun a b => a.created_at ≤ b.created_at) ∧
    (replaySelection dbC8 "zone-af" 0).length ≤ (effLimit 0).toNat ∧
    effLimit 0 ≤ 500 ∧
    ((0 : Int) ≤ 0 → effLimit 0 = 50) ∧
    ((0 : Int) < 0 → effLimit 0 ≤ 0) :=
  C8_replay_selection dbC8 "zone-af" 0 "op" "retry" 9 "OK" rfl (by decide)

theorem selectUnpublished_mem (outbox : List OutboxRow) (limit : Nat) (r : OutboxRow)
    (h : r ∈ selectUnpublished outbox limit) : r ∈ outbox ∧ r.published_at = none := by
  unfold selectUnpublished at h
  have h1 := List.take_subset _ _ h
  have h2 : r ∈ outbox.filter (fun u => decide (u.published_at = none)) :=
    (List.mem_insertionSort _).mp h1
  have h3 := List.mem_filter.mp h2
  exact ⟨h3.1, by simpa using h3.2⟩

theorem runBatch_msgs_sound (pubOk markOk : String → Bool) :
    ∀ l : List OutboxRow, ∀ m ∈ (runBatch pubOk markOk l).1,
      m.subject = "events.transfer_posted" ∧
      ∃ r ∈ l, m.msgId = r.id ∧ m.body = rewriteEventId r.payload r.id ∧
        pubOk r.id = true := by
  intro l
  induction l with
  | nil => intro m hm; simp [runBatch] at hm
  | cons r rest ih =>
    intro m hm
    by_cases hp : pubOk r.id = true
    · by_cases hq : markOk r.id = true
      · rw [runBatch] at hm
        simp only [hp, hq, if_true] at hm
        rcases List.mem_cons.mp hm with hm | hm
        · subst hm
          exact ⟨rfl, r, List.mem_cons_self r rest, rfl, rfl, hp⟩
        · obtain ⟨hsubj, r', hr', hrest⟩ := ih m hm
          exact ⟨hsubj, r', List.mem_cons_of_mem r hr', hrest⟩
      · rw [runBatch] at hm
        simp only [hp, hq, if_true, if_false] at hm
        rcases List.mem_singleton.mp hm with hm
        subst hm
        exact ⟨rfl, r, List.mem_cons_self r rest, rfl, rfl, hp⟩
    · rw [runBatch] at hm
      simp only [hp, if_false] at hm
      simp at hm

theorem runBatch_marked_sound (pubOk markOk : String → Bool) :
    ∀ l : List OutboxRow, ∀ i ∈ (runBatch pubOk markOk l).2,
      pubOk i = true ∧ ∃ m ∈ (runBatch pubOk markOk l).1, m.msgId = i := by
  intro l
  induction l with
  | nil => intro i hi; simp [runBatch] at hi
  | cons r rest ih =>
    intro i hi
    by_cases hp : pubOk r.id = true
    · by_cases hq : markOk r.id = true
      · rw [runBatch] at hi ⊢
        simp only [hp, hq, if_true] at hi ⊢
        rcases List.mem_cons.mp hi with hi | hi
        · subst hi
          exact ⟨hp, _, List.mem_cons_self _ _, rfl⟩
        · obtain ⟨hpub, m, hm, hmid⟩ := ih i hi
          exact ⟨hpub, m, List.mem_cons_of_mem _ hm, hmid⟩
      · rw [runBatch] at hi
        simp only [hp, hq, if_true, if_false] at hi
        simp at hi
    · rw [runBatch] at hi
      simp only [hp, if_false] at hi
      simp at hi

theorem runBatch_msgs_in_order (pubOk markOk : String → Bool) :
    ∀ l : List OutboxRow,
      ((runBatch pubOk markOk l).1.map (fun m => m.msgId)) <+: l.map (fun r => r.id) := by
  intro l
  induction l with
  | nil => simp [runBatch]
  | cons r rest ih =>
    by_cases hp : pubOk r.id = true
    · by_cases hq : markOk r.id = true
      · rw [runBatch]
        simp only [hp, hq, if_true, List.map_cons]
        exact (List.prefix_cons_inj r.id).mpr ih
      · rw [runBatch]
        simp only [hp, hq, if_true, Bool.false_eq_true, if_false, List.map_cons,
          List.map_nil]
        exact ⟨_, rfl⟩
    · rw [runBatch]
      simp only [hp, Bool.false_eq_true, if_false, List.map_nil, List.map_cons]
      exact List.nil_prefix

/-- C9: each tick's outbox drain publishes, in batch order, messages on
subject `events.transfer_posted` whose broker message id is the outbox row
id and whose body is the row's payload with `event_id` rewritten to the row
id exactly when it was absent or held the `"generated_by_db"` sentinel;
`published_at` is set only for rows whose publish succeeded, and once a row
fails, the remainder of the batch is left unpublished and stays eligible
(its `published_at` remains NULL). -/
theorem C9_publisher_batch
    (db : DB) (pubOk markOk : String → Bool) (limit : Nat) (now : Nat) :
    (∀ (p : OutboxPayload) (rowId : String),
      ((p.event_id = none ∨ p.event_id = some "generated_by_db") →
        (rewriteEventId p rowId).event_id = some rowId) ∧
      (¬(p.event_id = none ∨ p.event_id = some "generated_by_db") →
        rewriteEventId p rowId = p)) ∧
    (∀ m ∈ (publishBatch db pubOk markOk limit now).1,
      m.subject = "events.transfer_posted" ∧
      ∃ r ∈ selectUnpublished db.outbox limit,
        m.msgId = r.id ∧ m.body = rewriteEventId r.payload r.id ∧ pubOk r.id = true) ∧
    (∀ i ∈ (runBatch pubOk markOk (selectUnpublished db.outbox limit)).2,
      pubOk i = true ∧
      ∃ m ∈ (publishBatch db pubOk markOk limit now).1, m.msgId = i) ∧
    ((publishBatch db pubOk markOk limit now).2.outbox = db.outbox.map (fun r =>
      if r.id ∈ (runBatch pubOk markOk (selectUnpublished db.outbox limit)).2 then
        { r with published_at := some now } else r)) ∧
    (∀ r ∈ selectUnpublished db.outbox limit,
      r.id ∉ (runBatch pubOk markOk (selectUnpublished db.outbox limit)).2 →
      r.published_at = none ∧ r ∈ (publishBatch db pubOk markOk limit now).2.outbox) ∧
    (((publishBatch db pubOk markOk limit now).1.map (fun m => m.msgId)) <+:
      (selectUnpublished db.outbox limit).map (fun r => r.id)) := by
  refine ⟨?_, ?_, ?_, rfl, ?_, ?_⟩
  · intro p rowId
    constructor
    · intro h
      unfold rewriteEventId
      rw [if_pos h]
    · intro h
      unfold rewriteEventId
      rw [if_neg h]
  · exact runBatch_msgs_sound pubOk markOk (selectUnpublished db.outbox limit)
  · exact runBatch_marked_sound pubOk markOk (selectUnpublished db.outbox limit)
  · intro r hr hni
    have hmem := selectUnpublished_mem db.outbox limit r hr
    refine ⟨hmem.2, ?_⟩
    show r ∈ db.outbox.map (fun u =>
      if u.id ∈ (runBatch pubOk markOk (selectUnpublished db.outbox limit)).2 then
        { u with published_at := some now } else u)
    exact List.mem_map.mpr ⟨r, hmem.1, by rw [if_neg hni]⟩
  · exact runBatch_msgs_in_order pubOk markOk (selectUnpublished db.outbox limit)

/-- Witness for C9 on a one-row batch whose payload holds the sentinel. -/
theorem C9_publisher_batch_witness :
    (∀ (p : OutboxPayload) (rowId : String),
      ((p.event_id = none ∨ p.event_id = some "generated_by_db") →
        (rewriteEventId p rowId).event_id = some rowId) ∧
      (¬(p.event_id = none ∨ p.event_id = some "generated_by_db") →
        rewriteEventId p rowId = p)) ∧
    (∀ m ∈ (publishBatch dbC9 pubOkC9 markOkC9 50 7).1,
      m.subject = "events.transfer_posted" ∧
      ∃ r ∈ selectUnpublished dbC9.outbox 50,
        m.msgId = r.id ∧ m.body = rewriteEventId r.payload r.id ∧ pubOkC9 r.id = true) ∧
    (∀ i ∈ (runBatch pubOkC9 markOkC9 (selectUnpublished dbC9.outbox 50)).2,
      pubOkC9 i = true ∧
      ∃ m ∈ (publishBatch dbC9 pubOkC9 markOkC9 50 7).1, m.msgId = i) ∧
    ((publishBatch dbC9 pubOkC9 markOkC9 50 7).2.outbox = dbC9.outbox.map (fun r =>
      if r.id ∈ (runBatch pubOkC9 markOkC9 (selectUnpublished dbC9.outbox 50)).2 then
        { r with published_at := some 7 } else r)) ∧
    (∀ r ∈ selectUnpublished dbC9.outbox 50,
      r.id ∉ (runBatch pubOkC9 markOkC9 (selectUnpublished dbC9.outbox 50)).2 →
      r.published_at = none ∧ r ∈ (publishBatch dbC9 pubOkC9 markOkC9 50 7).2.outbox) ∧
    (((publishBatch dbC9 pubOkC9 markOkC9 50 7).1.map (fun m => m.msgId)) <+:
      (selectUnpublished dbC9.outbox 50).map (fun r => r.id)) :=
  C9_publisher_batch dbC9 pubOkC9 markOkC9 50 7

/-- C1, at the failing input: the consumer inserts the inbox row with
`ON CONFLICT DO NOTHING` but never checks whether a row already existed, so
the large-transfer rule runs again on a duplicate delivery.  Delivering the
same ≥ 3600 event twice from an empty state leaves the inbox row in place
after the first delivery, yet produces two incidents instead of at most
one, and the duplicate is still acked. -/
theorem C1_duplicate_delivery_duplicates_incident :
    ("fraud-v1", "e1") ∈ (handleMsg emptyDB msgC1).1.inbox ∧
    (handleMsg emptyDB msgC1).1.incidents.length = 1 ∧
    (handleMsg (handleMsg emptyDB msgC1).1 msgC1).1.inbox =
      (handleMsg emptyDB msgC1).1.inbox ∧
    (handleMsg (handleMsg emptyDB msgC1).1 msgC1).1.incidents.length = 2 ∧
    (handleMsg (handleMsg emptyDB msgC1).1 msgC1).2 = true := by
  exact ⟨by decide, by decide, by decide, by decide, by decide⟩

end TimeLedger
